import Mathlib

/-!
Verification of the request-admission pipeline and rate limiter of the
edge-next-starter repository, shallowly embedded in Lean 4.

The embedding follows `src/proxy.ts` (i18n routing, path lists, locale
stripping, the `proxy` pipeline) and `src/lib/rate-limiter/index.ts`
(`checkRateLimit`).  Modules the proxy imports that are not part of the
source tree (the i18n routing configuration, the CSRF guard and the CORS
helpers) are modelled from the specification and marked as such in their
doc comments.

JavaScript strings are modelled as Lean `String`s; `String.prototype.startsWith`
and `String.prototype.includes` are modelled as prefix/infix tests on the
character lists (the paths and tokens involved are ASCII, where JS UTF-16
code units coincide with characters).
-/

namespace EdgeNext

/-- Boolean character-list prefix test: model of JS `String.prototype.startsWith`
applied to the underlying character sequences. -/
def charsPrefix : List Char → List Char → Bool
  | [], _ => true
  | _ :: _, [] => false
  | a :: as, b :: bs => a == b && charsPrefix as bs

/-- Model of JS `s.startsWith(p)`. -/
def jsStartsWith (s p : String) : Bool :=
  charsPrefix p.toList s.toList

/-- Boolean character-list infix test, scanning left to right. -/
def charsInfix (needle : List Char) : List Char → Bool
  | [] => charsPrefix needle []
  | h :: t => charsPrefix needle (h :: t) || charsInfix needle t

/-- Model of JS `s.includes(sub)`. -/
def jsIncludes (s sub : String) : Bool :=
  charsInfix sub.toList s.toList

/-- An inbound HTTP request as the pipeline reads it: method, URL pathname,
the `Accept-Language` and `Origin` headers, and the CSRF token cookie and
header values. -/
structure Request where
  method : String
  pathname : String
  acceptLanguage : Option String
  origin : Option String
  csrfCookie : Option String
  csrfHeader : Option String
deriving Repr, DecidableEq

/-- Outcome of the session lookup (`auth.api.getSession`), modelled explicitly:
a session was found, none was found, or the lookup threw. -/
inductive SessionResult
  | found
  | notFound
  | lookupFailed
deriving Repr, DecidableEq

/-- The underlying response produced by the pipeline: a CORS-preflight answer,
the CSRF rejection (403-equivalent), a pass-through to the route handler
(`NextResponse.next()`), or a redirect with a `Location` value (given relative
to the request origin). -/
inductive BaseResponse
  | preflight
  | csrfReject
  | next
  | redirect (location : String)
deriving Repr, DecidableEq

/-- A response together with the pipeline's outbound decorations: whether CORS
headers were attached (`applyCorsHeaders` with a permitted origin) and whether
a fresh CSRF token cookie was attached (`ensureCsrfToken` on a request lacking
one). -/
structure ProxyResponse where
  base : BaseResponse
  corsDecorated : Bool
  csrfCookieSet : Bool
deriving Repr, DecidableEq

/-- A bare response with no decorations yet. -/
def plainResponse (b : BaseResponse) : ProxyResponse :=
  { base := b, corsDecorated := false, csrfCookieSet := false }

/-- The i18n routing configuration. -/
structure Routing where
  locales : List String
  defaultLocale : String

/-- Modelled from the spec: the routing configuration module (imported by the
proxy as `@/i18n/routing`) is not part of the source tree.  The configured
locales are `en` (the default: "Redirects bare paths to default locale
(e.g., / → /en)") and `fr` (the spec's other locale, as in its
`"fr-FR,en;q=0.9"` Accept-Language example and the `/fr/login` path). -/
def routing : Routing :=
  { locales := ["en", "fr"], defaultLocale := "en" }

/-- Unsafe (state-changing) HTTP methods, per the spec's CSRF section. -/
def isUnsafeMethod (m : String) : Bool :=
  m == "POST" || m == "PUT" || m == "PATCH" || m == "DELETE"

/-- Modelled from the spec: `validateCsrfToken` lives in
`src/lib/security/csrf.ts`, which is not part of the source tree.  "for safe
methods, always true. For unsafe methods, true only if a token cookie exists
AND a parallel request header/field carries the identical value." -/
def validateCsrfToken (req : Request) : Bool :=
  if isUnsafeMethod req.method then
    match req.csrfCookie, req.csrfHeader with
    | some c, some h => c == h
    | _, _ => false
  else true

/-- Modelled from the spec: the CSRF rejection is a terminal 403-equivalent
response that "bypasses CORS decoration by design". -/
def csrfErrorResponse : ProxyResponse :=
  { base := .csrfReject, corsDecorated := false, csrfCookieSet := false }

/-- Modelled from the spec: `ensureToken` "attaches a newly generated token
cookie to the outgoing response" when "no CSRF cookie present on the inbound
request". -/
def ensureCsrfToken (req : Request) (r : ProxyResponse) : ProxyResponse :=
  { r with csrfCookieSet := r.csrfCookieSet || req.csrfCookie.isNone }

/-- Modelled from the spec: `isPreflight(request)` is "true iff method is
`OPTIONS` and an `Origin` header is present". -/
def isPreflightRequest (req : Request) : Bool :=
  req.method == "OPTIONS" && req.origin.isSome

/-- Modelled from the spec: `handlePreflight` "returns a response with
allowed-origin/methods/headers set from configuration, no body, terminal". -/
def handlePreflight (_req : Request) : ProxyResponse :=
  { base := .preflight, corsDecorated := true, csrfCookieSet := false }

/-- Modelled from the spec: `applyHeaders` "decorates a non-preflight response
with CORS headers when the request's Origin is present and permitted,
otherwise leaves the response undecorated".  The permitted-origin policy is
abstracted as the boolean `originAllowed`. -/
def applyCorsHeaders (originAllowed : Bool) (r : ProxyResponse) : ProxyResponse :=
  { r with corsDecorated := r.corsDecorated || originAllowed }

/-- Whether the pathname already has a locale prefix
(`pathname.startsWith(`/${locale}/`) || pathname === `/${locale}``),
from `handleI18nRouting` in `src/proxy.ts`. -/
def hasLocalePrefix (pathname : String) : Bool :=
  routing.locales.any fun locale =>
    jsStartsWith pathname ("/" ++ locale ++ "/") || pathname == "/" ++ locale

/-- Whether a configured locale's code occurs in the lowercased
Accept-Language header (`acceptLanguage.toLowerCase().includes(locale)`). -/
def localeMatches (acceptLanguage locale : String) : Bool :=
  jsIncludes acceptLanguage.toLower locale

/-- The detection loop of `handleI18nRouting`: the first configured locale
whose code occurs in the lowercased Accept-Language header, else the default
locale. -/
def detectLocale (acceptLanguage : String) : String :=
  match routing.locales.find? (fun locale => localeMatches acceptLanguage locale) with
  | some locale => locale
  | none => routing.defaultLocale

/-- Result of the i18n routing handler: pass through, or redirect to a
localized path. -/
inductive I18nResult
  | next
  | redirect (location : String)
deriving Repr, DecidableEq

/-- `handleI18nRouting` from `src/proxy.ts`: pass through locale-prefixed
paths, otherwise redirect to the detected (or default) locale prefixed to the
same path.  An absent Accept-Language header reads as `''`. -/
def handleI18nRouting (req : Request) : I18nResult :=
  let pathname := req.pathname
  if hasLocalePrefix pathname then
    .next
  else
    let acceptLanguage := req.acceptLanguage.getD ""
    let detectedLocale := detectLocale acceptLanguage
    .redirect ("/" ++ detectedLocale ++ pathname)

/-- `publicPaths` from `src/proxy.ts`: paths that do not require
authentication, checked against the locale-stripped path. -/
def publicPaths : List String :=
  ["/", "/privacy", "/terms", "/login", "/register", "/pricing", "/checkout/cancel"]

/-- `authPages` from `src/proxy.ts`: auth-only pages (redirect away if already
authenticated). -/
def authPages : List String :=
  ["/login", "/register"]

/-- The API-public allowlist from `src/proxy.ts` (`isApiPublicPath`). -/
def apiPublicPaths : List String :=
  ["/api/auth", "/api/health", "/api/register", "/api/stripe/webhook", "/api/monitoring"]

/-- The loop body of `stripLocale` from `src/proxy.ts`, over a list of
locales.  `pathname.slice(`/${locale}`.length) || '/'` is modelled by
dropping that many characters and mapping the empty result to `/`. -/
def stripLocaleAux (pathname : String) : List String → String
  | [] => pathname
  | locale :: rest =>
    if jsStartsWith pathname ("/" ++ locale ++ "/") then
      let sliced := String.mk (pathname.toList.drop ("/" ++ locale).toList.length)
      if sliced == "" then "/" else sliced
    else if pathname == "/" ++ locale then "/"
    else stripLocaleAux pathname rest

/-- `stripLocale` from `src/proxy.ts`: strip a recognized locale prefix from
the pathname. -/
def stripLocale (pathname : String) : String :=
  stripLocaleAux pathname routing.locales

/-- The matching used for both `publicPaths` and `authPages` in
`src/proxy.ts`: `actualPath === path || actualPath.startsWith(path + '/')`. -/
def matchesPathList (paths : List String) (actualPath : String) : Bool :=
  paths.any fun path => actualPath == path || jsStartsWith actualPath (path ++ "/")

/-- `isPublicPath` from `src/proxy.ts` (applied to the locale-stripped path). -/
def isPublicPath (actualPath : String) : Bool :=
  matchesPathList publicPaths actualPath

/-- `isAuthPage` from `src/proxy.ts` (applied to the locale-stripped path). -/
def isAuthPage (actualPath : String) : Bool :=
  matchesPathList authPages actualPath

/-- `isApiPublicPath` from `src/proxy.ts`: a prefix test of the **unstripped**
pathname against the API-public allowlist. -/
def isApiPublicPath (pathname : String) : Bool :=
  apiPublicPaths.any fun path => jsStartsWith pathname path

/-- Uppercase hexadecimal digit for `n < 16`. -/
def hexDigitChar (n : Nat) : Char :=
  if n < 10 then Char.ofNat (48 + n) else Char.ofNat (55 + n)

/-- A percent-escaped byte, as produced by `URLSearchParams` serialization. -/
def percentByte (b : Nat) : String :=
  String.mk ['%', hexDigitChar (b / 16), hexDigitChar (b % 16)]

/-- UTF-8 bytes of a Unicode code point. -/
def utf8Bytes (n : Nat) : List Nat :=
  if n < 128 then [n]
  else if n < 2048 then [192 + n / 64, 128 + n % 64]
  else if n < 65536 then [224 + n / 4096, 128 + (n / 64) % 64, 128 + n % 64]
  else [240 + n / 262144, 128 + (n / 4096) % 64, 128 + (n / 64) % 64, 128 + n % 64]

/-- One character of `application/x-www-form-urlencoded` serialization, as
`URLSearchParams.set` / `toString` produce for the `callbackUrl` parameter:
ASCII alphanumerics and `*`, `-`, `.`, `_` are kept, space becomes `+`, and
everything else is percent-escaped bytewise. -/
def formUrlEncodeChar (c : Char) : String :=
  if c.isAlphanum || c == '*' || c == '-' || c == '.' || c == '_' then
    String.singleton c
  else if c == ' ' then "+"
  else String.join ((utf8Bytes c.toNat).map percentByte)

/-- `application/x-www-form-urlencoded` serialization of a string. -/
def formUrlEncode (s : String) : String :=
  String.join (s.toList.map formUrlEncodeChar)

/-- The `Location` of the login redirect built in `src/proxy.ts`
(`new URL('/login', req.url)` with `callbackUrl` set to the pathname),
relative to the request origin. -/
def loginRedirectPath (pathname : String) : String :=
  "/login?callbackUrl=" ++ formUrlEncode pathname

/-- `isAuthenticated` in `src/proxy.ts`: `!!session`, with a lookup failure
caught and treated as unauthenticated. -/
def isAuthenticatedOf (sess : SessionResult) : Bool :=
  sess == .found

/-- The guard of the home redirect in `src/proxy.ts`:
`isAuthenticated && isAuthPage`. -/
def authPageRedirectDecision (sess : SessionResult) (pathname : String) : Bool :=
  isAuthenticatedOf sess && isAuthPage (stripLocale pathname)

/-- The guard of the login redirect in `src/proxy.ts`:
`!isAuthenticated && !isPublicPath && !isApiPublicPath`. -/
def loginRedirectDecision (sess : SessionResult) (pathname : String) : Bool :=
  !isAuthenticatedOf sess && !isPublicPath (stripLocale pathname) && !isApiPublicPath pathname

/-- Lift an i18n routing result to a pipeline response. -/
def i18nToResponse : I18nResult → ProxyResponse
  | .next => plainResponse .next
  | .redirect loc => plainResponse (.redirect loc)

/-- The `proxy` pipeline from `src/proxy.ts`.  The session lookup outcome and
the CORS permitted-origin policy are explicit inputs. -/
def proxy (originAllowed : Bool) (sess : SessionResult) (req : Request) : ProxyResponse :=
  let pathname := req.pathname
  if jsStartsWith pathname "/api/" then
    if isPreflightRequest req then handlePreflight req
    else if !validateCsrfToken req then csrfErrorResponse
    else ensureCsrfToken req (applyCorsHeaders originAllowed (plainResponse .next))
  else if isPreflightRequest req then handlePreflight req
  else if !validateCsrfToken req then csrfErrorResponse
  else
    let i18nResponse := i18nToResponse (handleI18nRouting req)
    if authPageRedirectDecision sess pathname then
      ensureCsrfToken req (applyCorsHeaders originAllowed (plainResponse (.redirect "/")))
    else if loginRedirectDecision sess pathname then
      ensureCsrfToken req
        (applyCorsHeaders originAllowed (plainResponse (.redirect (loginRedirectPath pathname))))
    else ensureCsrfToken req (applyCorsHeaders originAllowed i18nResponse)

/-- The path classifications named by the spec. -/
inductive PathClassification
  | Public
  | AuthOnly
  | Protected
  | ApiPublic
deriving Repr, DecidableEq

/-- The spec's `classify`, in the spec's stated order (no such function exists
in the source; this follows the spec's words for comparison): strip the locale
prefix, then test the API-prefix public allowlist, then the general public
allowlist, then the auth-only pages list, first match wins, no match is
`Protected`. -/
def classifySpecOrder (path : String) : PathClassification :=
  let s := stripLocale path
  if apiPublicPaths.any (fun p => jsStartsWith s p) then .ApiPublic
  else if isPublicPath s then .Public
  else if isAuthPage s then .AuthOnly
  else .Protected

/-- Classification in the order the source's gating actually applies: the
auth-only pages list is tested before the general public allowlist (in
`src/proxy.ts` the authenticated-on-auth-page redirect is decided before the
public-path check). -/
def classifyAuthFirst (path : String) : PathClassification :=
  let s := stripLocale path
  if apiPublicPaths.any (fun p => jsStartsWith s p) then .ApiPublic
  else if isAuthPage s then .AuthOnly
  else if isPublicPath s then .Public
  else .Protected

/-- `RateLimitConfig` from `src/lib/rate-limiter/index.ts`. -/
structure RateLimitConfig where
  maxRequests : Nat
  windowSeconds : Nat
  keyPrefix : String
deriving Repr, DecidableEq

/-- `RateLimitResult` from `src/lib/rate-limiter/index.ts`.  Times are in
seconds since the epoch. -/
structure RateLimitResult where
  allowed : Bool
  current : Nat
  limit : Nat
  remaining : Nat
  resetAt : Nat
deriving Repr, DecidableEq

instance : Inhabited RateLimitResult :=
  ⟨{ allowed := false, current := 0, limit := 0, remaining := 0, resetAt := 0 }⟩

/-- The record `checkRateLimit` stores in the cache under
`${keyPrefix}:${identifier}` (times in milliseconds). -/
structure RateRecord where
  count : Nat
  firstRequestTime : Nat
deriving Repr, DecidableEq

/-- What the cache holds at the rate-limit key: nothing (`get` returns null),
a value `JSON.parse` fails on, or a parsed record. -/
inductive CacheCell
  | empty
  | corrupt
  | stored (r : RateRecord)
deriving Repr, DecidableEq

/-- Outcome of one `checkRateLimit` call with an available, working cache:
the returned result, the cache cell after the call, and the `put` the call
performed, if any, with its `expirationTtl`. -/
structure RateLimitStep where
  result : RateLimitResult
  cell : CacheCell
  write : Option (RateRecord × Nat)
deriving Repr, DecidableEq

/-- The body of `checkRateLimit` from `src/lib/rate-limiter/index.ts` for an
available cache whose `get` succeeds, at time `now` (milliseconds).  A missing
or unparsable value reads as `count = 0, firstRequestTime = now`; JS falsiness
(`parsed.firstRequestTime || now`) maps a stored zero timestamp to `now`.  If
the window has elapsed (`now - firstRequestTime > windowSeconds * 1000`) the
counter resets.  Under the limit the counter is incremented and persisted with
`expirationTtl = windowSeconds`; otherwise the call rejects without writing. -/
def checkRateLimitStep (config : RateLimitConfig) (now : Nat) (cell : CacheCell) :
    RateLimitStep :=
  let windowMs := config.windowSeconds * 1000
  let read : Nat × Nat :=
    match cell with
    | .empty => (0, now)
    | .corrupt => (0, now)
    | .stored r => (r.count, if r.firstRequestTime == 0 then now else r.firstRequestTime)
  let count0 := read.1
  let first0 := read.2
  let expired : Bool := decide (now - first0 > windowMs)
  let count1 := if expired then 0 else count0
  let first1 := if expired then now else first0
  let allowed : Bool := decide (count1 < config.maxRequests)
  if allowed then
    let count2 := count1 + 1
    { result :=
        { allowed := true, current := count2, limit := config.maxRequests,
          remaining := config.maxRequests - count2,
          resetAt := first1 / 1000 + config.windowSeconds },
      cell := .stored ⟨count2, first1⟩,
      write := some (⟨count2, first1⟩, config.windowSeconds) }
  else
    { result :=
        { allowed := false, current := count1, limit := config.maxRequests,
          remaining := config.maxRequests - count1,
          resetAt := first1 / 1000 + config.windowSeconds },
      cell := cell,
      write := none }

/-- The fail-open result of `checkRateLimit`: built both when
`createCacheClient()` returns no client and in the `catch` handler, from the
current time in seconds. -/
def failOpenResult (config : RateLimitConfig) (nowSeconds : Nat) : RateLimitResult :=
  { allowed := true, current := 0, limit := config.maxRequests,
    remaining := config.maxRequests, resetAt := nowSeconds + config.windowSeconds }

/-- How the cache behaves for one `checkRateLimit` call: no client configured,
the read throws, or the read succeeds with the given cell. -/
inductive CacheMode
  | unavailable
  | readThrows
  | ok (cell : CacheCell)
deriving Repr, DecidableEq

/-- The result `checkRateLimit` returns, covering all three cache behaviors of
`src/lib/rate-limiter/index.ts`: no client and a throwing read both produce
the fail-open result; a successful read runs the counter logic. -/
def checkRateLimitResult (config : RateLimitConfig) (nowMs : Nat) (mode : CacheMode) :
    RateLimitResult :=
  match mode with
  | .unavailable => failOpenResult config (nowMs / 1000)
  | .readThrows => failOpenResult config (nowMs / 1000)
  | .ok cell => (checkRateLimitStep config nowMs cell).result

/-- A sequence of `checkRateLimit` calls at the given times against one key,
threading the cache cell through. -/
def runCalls (config : RateLimitConfig) : CacheCell → List Nat → List RateLimitResult
  | _, [] => []
  | cell, t :: ts =>
    let step := checkRateLimitStep config t cell
    step.result :: runCalls config step.cell ts

/-- The result of the call with `j` prior calls in a window that started at
`t1` (milliseconds) and has not elapsed: the first `maxRequests` calls are
allowed with decreasing `remaining`; later calls are rejected with
`remaining = 0`. -/
def expectedWindowResult (config : RateLimitConfig) (t1 j : Nat) : RateLimitResult :=
  if j < config.maxRequests then
    { allowed := true, current := j + 1, limit := config.maxRequests,
      remaining := config.maxRequests - (j + 1),
      resetAt := t1 / 1000 + config.windowSeconds }
  else
    { allowed := false, current := config.maxRequests, limit := config.maxRequests,
      remaining := 0, resetAt := t1 / 1000 + config.windowSeconds }

/-! ## General lemmas about the embedding -/

/-- Prefix tests compose: if `q` is a prefix of `p` and `p` is a prefix of
`s`, then `q` is a prefix of `s`. -/
theorem charsPrefix_trans : ∀ {q p s : List Char},
    charsPrefix q p = true → charsPrefix p s = true → charsPrefix q s = true := by
  intro q
  induction q with
  | nil => intro p s _ _; rfl
  | cons x xs ih =>
    intro p s hqp hps
    match p with
    | [] => simp [charsPrefix] at hqp
    | y :: ys =>
      match s with
      | [] => simp [charsPrefix] at hps
      | z :: zs =>
        simp only [charsPrefix, Bool.and_eq_true, beq_iff_eq] at hqp hps ⊢
        exact ⟨hqp.1.trans hps.1, ih hqp.2 hps.2⟩

/-- `startsWith` transitivity at the string level. -/
theorem jsStartsWith_trans (s p q : String) (hpq : jsStartsWith p q = true)
    (hsp : jsStartsWith s p = true) : jsStartsWith s q = true :=
  charsPrefix_trans hpq hsp

theorem ensureCsrfToken_base (req : Request) (r : ProxyResponse) :
    (ensureCsrfToken req r).base = r.base := rfl

theorem applyCorsHeaders_base (b : Bool) (r : ProxyResponse) :
    (applyCorsHeaders b r).base = r.base := rfl

/-! ## C1: path classification of `/login`, `/en/login`, `/fr/login`, `/dashboard` -/

/-- C1 (counterexample): under the spec's stated matching order — the general
public allowlist tested **before** the auth-only pages list, first match wins —
`classify("/login")` yields `Public`, not `AuthOnly`, because `/login` is an
exact member of the public allowlist in `src/proxy.ts`. -/
theorem c1_spec_order_classifies_login_public :
    classifySpecOrder "/login" = PathClassification.Public ∧
    classifySpecOrder "/login" ≠ PathClassification.AuthOnly := by
  exact ⟨by decide, by decide⟩

/-- C1 (amended): with the auth-only pages list tested before the general
public allowlist — the precedence the code's gating actually applies —
`classify("/login")`, `classify("/en/login")` and `classify("/fr/login")` all
yield `AuthOnly`, and `classify("/dashboard")` yields `Protected`. -/
theorem c1_classification_auth_first :
    classifyAuthFirst "/login" = PathClassification.AuthOnly ∧
    classifyAuthFirst "/en/login" = PathClassification.AuthOnly ∧
    classifyAuthFirst "/fr/login" = PathClassification.AuthOnly ∧
    classifyAuthFirst "/dashboard" = PathClassification.Protected := by
  refine ⟨by decide, by decide, by decide, by decide⟩

/-! ## C2: locale-prefixed API-public paths -/

/-- C2 (counterexample): `isApiPublicPath` tests the unstripped pathname, so
`/en/api/health` does not match the API-public allowlist, and an
unauthenticated GET to `/en/api/health` is redirected to login — the opposite
of the claim. -/
theorem c2_locale_api_path_redirected :
    isApiPublicPath "/en/api/health" = false ∧
    (proxy false SessionResult.notFound
        { method := "GET", pathname := "/en/api/health", acceptLanguage := none,
          origin := none, csrfCookie := none, csrfHeader := none }).base =
      BaseResponse.redirect "/login?callbackUrl=%2Fen%2Fapi%2Fhealth" := by
  exact ⟨by decide, by decide⟩

/-- C2 (amended): the API-prefix public allowlist is tested against the
**unstripped** pathname, so no locale-prefixed variant of an allowlist entry
matches it, and an unauthenticated page-branch request to `/en/api/health`
(one that is not a preflight and passes CSRF validation) **is** redirected to
login with the original path as callback. -/
theorem c2_unstripped_api_allowlist :
    (∀ l ∈ routing.locales, ∀ p ∈ apiPublicPaths,
      isApiPublicPath ("/" ++ l ++ p) = false) ∧
    ∀ (originAllowed : Bool) (sess : SessionResult) (req : Request),
      req.pathname = "/en/api/health" →
      sess ≠ SessionResult.found →
      isPreflightRequest req = false →
      validateCsrfToken req = true →
      (proxy originAllowed sess req).base =
        BaseResponse.redirect "/login?callbackUrl=%2Fen%2Fapi%2Fhealth" := by
  constructor
  · decide
  · intro originAllowed sess req hpath hsess hpre hcsrf
    have hapi : jsStartsWith "/en/api/health" "/api/" = false := by decide
    have hloc : loginRedirectPath "/en/api/health" =
        "/login?callbackUrl=%2Fen%2Fapi%2Fhealth" := by decide
    cases sess with
    | found => exact absurd rfl hsess
    | notFound =>
      have hauthp : authPageRedirectDecision SessionResult.notFound "/en/api/health" = false := by
        decide
      have hlogin : loginRedirectDecision SessionResult.notFound "/en/api/health" = true := by
        decide
      simp [proxy, hpath, hapi, hpre, hcsrf, hauthp, hlogin, ensureCsrfToken_base,
        applyCorsHeaders_base, plainResponse, hloc]
    | lookupFailed =>
      have hauthp : authPageRedirectDecision SessionResult.lookupFailed "/en/api/health" = false := by
        decide
      have hlogin : loginRedirectDecision SessionResult.lookupFailed "/en/api/health" = true := by
        decide
      simp [proxy, hpath, hapi, hpre, hcsrf, hauthp, hlogin, ensureCsrfToken_base,
        applyCorsHeaders_base, plainResponse, hloc]

/-- C2 (witness): the amended statement at a concrete unauthenticated GET. -/
theorem c2_unstripped_api_allowlist_witness :
    (proxy true SessionResult.lookupFailed
        { method := "GET", pathname := "/en/api/health", acceptLanguage := some "en-US",
          origin := some "https://example.com", csrfCookie := none, csrfHeader := none }).base =
      BaseResponse.redirect "/login?callbackUrl=%2Fen%2Fapi%2Fhealth" :=
  c2_unstripped_api_allowlist.2 true SessionResult.lookupFailed
    { method := "GET", pathname := "/en/api/health", acceptLanguage := some "en-US",
      origin := some "https://example.com", csrfCookie := none, csrfHeader := none }
    rfl (by decide) (by decide) (by decide)

/-! ## C3: login redirect for unauthenticated `/en/dashboard` -/

/-- C3 (counterexample): a request to `/en/dashboard` with no session is *not*
always answered with the login redirect — a POST carrying no CSRF cookie is
rejected by the CSRF guard first. -/
theorem c3_csrf_precedes_login_redirect :
    (proxy false SessionResult.notFound
        { method := "POST", pathname := "/en/dashboard", acceptLanguage := none,
          origin := none, csrfCookie := none, csrfHeader := none }).base =
      BaseResponse.csrfReject ∧
    (proxy false SessionResult.notFound
        { method := "POST", pathname := "/en/dashboard", acceptLanguage := none,
          origin := none, csrfCookie := none, csrfHeader := none }).base ≠
      BaseResponse.redirect "/login?callbackUrl=%2Fen%2Fdashboard" := by
  exact ⟨by decide, by decide⟩

/-- C3 (amended): every request to `/en/dashboard` whose session lookup
returns null or throws, that is not a CORS preflight and that passes CSRF
validation, is redirected to `/login?callbackUrl=%2Fen%2Fdashboard`. -/
theorem c3_login_redirect_en_dashboard :
    ∀ (originAllowed : Bool) (sess : SessionResult) (req : Request),
      req.pathname = "/en/dashboard" →
      (sess = SessionResult.notFound ∨ sess = SessionResult.lookupFailed) →
      isPreflightRequest req = false →
      validateCsrfToken req = true →
      (proxy originAllowed sess req).base =
        BaseResponse.redirect "/login?callbackUrl=%2Fen%2Fdashboard" := by
  intro originAllowed sess req hpath hsess hpre hcsrf
  have hapi : jsStartsWith "/en/dashboard" "/api/" = false := by decide
  have hloc : loginRedirectPath "/en/dashboard" =
      "/login?callbackUrl=%2Fen%2Fdashboard" := by decide
  cases sess with
  | found => rcases hsess with h | h <;> exact absurd h (by decide)
  | notFound =>
    have hauthp : authPageRedirectDecision SessionResult.notFound "/en/dashboard" = false := by
      decide
    have hlogin : loginRedirectDecision SessionResult.notFound "/en/dashboard" = true := by
      decide
    simp [proxy, hpath, hapi, hpre, hcsrf, hauthp, hlogin, ensureCsrfToken_base,
      applyCorsHeaders_base, plainResponse, hloc]
  | lookupFailed =>
    have hauthp : authPageRedirectDecision SessionResult.lookupFailed "/en/dashboard" = false := by
      decide
    have hlogin : loginRedirectDecision SessionResult.lookupFailed "/en/dashboard" = true := by
      decide
    simp [proxy, hpath, hapi, hpre, hcsrf, hauthp, hlogin, ensureCsrfToken_base,
      applyCorsHeaders_base, plainResponse, hloc]

/-- C3 (witness): the amended statement at a concrete GET with no session. -/
theorem c3_login_redirect_en_dashboard_witness :
    (proxy false SessionResult.notFound
        { method := "GET", pathname := "/en/dashboard", acceptLanguage := none,
          origin := none, csrfCookie := none, csrfHeader := none }).base =
      BaseResponse.redirect "/login?callbackUrl=%2Fen%2Fdashboard" :=
  c3_login_redirect_en_dashboard false SessionResult.notFound
    { method := "GET", pathname := "/en/dashboard", acceptLanguage := none,
      origin := none, csrfCookie := none, csrfHeader := none }
    rfl (Or.inl rfl) (by decide) (by decide)

/-! ## C4: CSRF rejection short-circuits the pipeline -/

/-- C4: every unsafe-method request whose CSRF cookie is absent or whose
cookie and header values differ is answered with the CSRF rejection — for
every session-lookup outcome and CORS policy, on both the API and the page
branch — and that rejection is not the pass-through response and carries no
CORS decoration. -/
theorem c4_csrf_rejection :
    ∀ (originAllowed : Bool) (sess : SessionResult) (req : Request),
      isUnsafeMethod req.method = true →
      (req.csrfCookie = none ∨ req.csrfCookie ≠ req.csrfHeader) →
      proxy originAllowed sess req = csrfErrorResponse ∧
      csrfErrorResponse.base ≠ BaseResponse.next ∧
      csrfErrorResponse.corsDecorated = false := by
  intro originAllowed sess req hmeth hbad
  have hv : validateCsrfToken req = false := by
    unfold validateCsrfToken
    rw [hmeth]
    simp only [if_true]
    cases hc : req.csrfCookie with
    | none => rfl
    | some c =>
      cases hh : req.csrfHeader with
      | none => rfl
      | some h =>
        rcases hbad with hb | hb
        · rw [hc] at hb; exact absurd hb (by simp)
        · rw [hc, hh] at hb
          have : c ≠ h := fun he => hb (by rw [he])
          simpa [beq_iff_eq] using this
  have hp : isPreflightRequest req = false := by
    unfold isPreflightRequest
    unfold isUnsafeMethod at hmeth
    rcases Bool.or_eq_true_iff.mp hmeth with h | h
    · rcases Bool.or_eq_true_iff.mp h with h | h
      · rcases Bool.or_eq_true_iff.mp h with h | h <;>
          · rw [show req.method = _ from beq_iff_eq.mp h]; rfl
      · rw [show req.method = _ from beq_iff_eq.mp h]; rfl
    · rw [show req.method = _ from beq_iff_eq.mp h]; rfl
  refine ⟨?_, by decide, rfl⟩
  unfold proxy
  by_cases hapi : jsStartsWith req.pathname "/api/" = true
  · simp [hapi, hp, hv]
  · simp only [Bool.not_eq_true] at hapi
    simp [hapi, hp, hv]

/-- C4 (witness): a concrete POST with no CSRF cookie is rejected. -/
theorem c4_csrf_rejection_witness :
    proxy false SessionResult.found
        { method := "POST", pathname := "/en/dashboard", acceptLanguage := none,
          origin := none, csrfCookie := none, csrfHeader := some "tok" } =
      csrfErrorResponse ∧
    csrfErrorResponse.base ≠ BaseResponse.next ∧
    csrfErrorResponse.corsDecorated = false :=
  c4_csrf_rejection false SessionResult.found
    { method := "POST", pathname := "/en/dashboard", acceptLanguage := none,
      origin := none, csrfCookie := none, csrfHeader := some "tok" }
    (by decide) (Or.inl rfl)

/-! ## C7: window reset after expiry -/

/-- C7 (counterexample): with `maxRequests = 0` the reset call is *not*
allowed with `current = 1`: the counter resets, but the call is rejected with
`current = 0`, so the claim does not hold for every config. -/
theorem c7_zero_max_not_reset_allowed :
    (checkRateLimitStep ⟨0, 1, "rate-limit:test"⟩ 10000
        (CacheCell.stored ⟨5, 1000⟩)).result.allowed = false ∧
    (checkRateLimitStep ⟨0, 1, "rate-limit:test"⟩ 10000
        (CacheCell.stored ⟨5, 1000⟩)).result.current = 0 := by
  exact ⟨by decide, by decide⟩

/-- C7 (amended): for every config with `maxRequests ≥ 1`, a `checkRateLimit`
call made after the window has elapsed since the stored (positive)
`firstRequestTime` resets the window: it returns `current = 1` and
`allowed = true` regardless of the previously stored count. -/
theorem c7_window_reset :
    ∀ (config : RateLimitConfig) (c first now : Nat),
      1 ≤ config.maxRequests →
      0 < first →
      first + config.windowSeconds * 1000 < now →
      (checkRateLimitStep config now (CacheCell.stored ⟨c, first⟩)).result.current = 1 ∧
      (checkRateLimitStep config now (CacheCell.stored ⟨c, first⟩)).result.allowed = true := by
  intro config c first now hmax hfirst hwin
  have h0 : (first == 0) = false := by
    rw [beq_eq_false_iff_ne]
    omega
  have hexp : (decide (now - first > config.windowSeconds * 1000)) = true := by
    rw [decide_eq_true_eq]
    omega
  have hall : (decide ((0 : Nat) < config.maxRequests)) = true := by
    rw [decide_eq_true_eq]
    omega
  simp [checkRateLimitStep, h0, hexp, hall]

/-- C7 (witness): the amended statement at a concrete expired window. -/
theorem c7_window_reset_witness :
    (checkRateLimitStep ⟨1, 1, "rate-limit:test"⟩ 10000
        (CacheCell.stored ⟨5, 1000⟩)).result.current = 1 ∧
    (checkRateLimitStep ⟨1, 1, "rate-limit:test"⟩ 10000
        (CacheCell.stored ⟨5, 1000⟩)).result.allowed = true :=
  c7_window_reset ⟨1, 1, "rate-limit:test"⟩ 5 1000 10000 (by decide) (by decide) (by decide)

/-! ## C8: no write on rejection -/

/-- C8: `checkRateLimit` is atomic on rejection — whenever it rejects, it
performs no cache write and leaves the stored cell exactly as it was; every
write belongs to an allowed call and persists the incremented record with
`expirationTtl` equal to the window length. -/
theorem c8_no_write_on_rejection :
    ∀ (config : RateLimitConfig) (now : Nat) (cell : CacheCell),
      ((checkRateLimitStep config now cell).result.allowed = false →
        (checkRateLimitStep config now cell).write = none ∧
        (checkRateLimitStep config now cell).cell = cell) ∧
      ((checkRateLimitStep config now cell).result.allowed = true →
        ∃ r : RateRecord,
          (checkRateLimitStep config now cell).write = some (r, config.windowSeconds) ∧
          (checkRateLimitStep config now cell).cell = CacheCell.stored r ∧
          r.count = (checkRateLimitStep config now cell).result.current) := by
  intro config now cell
  unfold checkRateLimitStep
  dsimp only
  split <;> split
  · exact ⟨fun h => Bool.noConfusion h, fun _ => ⟨_, rfl, rfl, rfl⟩⟩
  · exact ⟨fun _ => ⟨rfl, rfl⟩, fun h => Bool.noConfusion h⟩
  · exact ⟨fun h => Bool.noConfusion h, fun _ => ⟨_, rfl, rfl, rfl⟩⟩
  · exact ⟨fun _ => ⟨rfl, rfl⟩, fun h => Bool.noConfusion h⟩

/-- C8 (witness): a concrete rejected call (limit 0) writes nothing and keeps
the cell. -/
theorem c8_no_write_on_rejection_witness :
    (checkRateLimitStep ⟨0, 1, "rate-limit:test"⟩ 5 CacheCell.empty).write = none ∧
    (checkRateLimitStep ⟨0, 1, "rate-limit:test"⟩ 5 CacheCell.empty).cell = CacheCell.empty :=
  (c8_no_write_on_rejection ⟨0, 1, "rate-limit:test"⟩ 5 CacheCell.empty).1 (by decide)

/-! ## C9: fail-open -/

/-- C9 (counterexample): when the stored value cannot be parsed the call does
*not* unconditionally return `allowed = true` — with `maxRequests = 0` the
reset counter is still over the limit and the call is rejected. -/
theorem c9_corrupt_zero_max_rejected :
    (checkRateLimitResult ⟨0, 60, "rate-limit:test"⟩ 5000
        (CacheMode.ok CacheCell.corrupt)).allowed = false := by
  decide

/-- C9 (amended): `checkRateLimit` fails open: an unavailable cache store and
a throwing cache read always yield `allowed = true`; an unparsable stored
value resets the counter and yields `allowed = true` provided
`maxRequests ≥ 1`. -/
theorem c9_fail_open :
    ∀ (config : RateLimitConfig) (nowMs : Nat),
      (checkRateLimitResult config nowMs CacheMode.unavailable).allowed = true ∧
      (checkRateLimitResult config nowMs CacheMode.readThrows).allowed = true ∧
      (1 ≤ config.maxRequests →
        (checkRateLimitResult config nowMs (CacheMode.ok CacheCell.corrupt)).allowed = true) := by
  intro config nowMs
  refine ⟨rfl, rfl, ?_⟩
  intro hmax
  have hexp : (decide (nowMs - nowMs > config.windowSeconds * 1000)) = false := by
    rw [decide_eq_false_iff_not]
    omega
  have hall : (decide ((0 : Nat) < config.maxRequests)) = true := by
    rw [decide_eq_true_eq]
    omega
  simp [checkRateLimitResult, checkRateLimitStep, hexp, hall]

/-- C9 (witness): the fail-open behaviors at the upload preset's config. -/
theorem c9_fail_open_witness :
    (checkRateLimitResult ⟨5, 60, "rate-limit:upload"⟩ 1700000000000
        CacheMode.unavailable).allowed = true ∧
    (checkRateLimitResult ⟨5, 60, "rate-limit:upload"⟩ 1700000000000
        (CacheMode.ok CacheCell.corrupt)).allowed = true :=
  ⟨(c9_fail_open ⟨5, 60, "rate-limit:upload"⟩ 1700000000000).1,
   (c9_fail_open ⟨5, 60, "rate-limit:upload"⟩ 1700000000000).2.2 (by decide)⟩

/-! ## C10: the API-public allowlist is vacuous on the page branch -/

/-- C10: on the page branch — any pathname that does not start with `/api/` —
the unstripped-pathname API-public test is vacuously false (every allowlist
entry itself starts with `/api/`), so the login-redirect decision reduces to
"unauthenticated and not a public path". -/
theorem c10_api_allowlist_vacuous_on_page_branch :
    ∀ pathname : String, jsStartsWith pathname "/api/" = false →
      isApiPublicPath pathname = false ∧
      ∀ sess : SessionResult,
        loginRedirectDecision sess pathname =
          (!isAuthenticatedOf sess && !isPublicPath (stripLocale pathname)) := by
  intro pathname hnap
  have key : ∀ p : String, jsStartsWith p "/api/" = true → jsStartsWith pathname p = false := by
    intro p hp
    cases h : jsStartsWith pathname p with
    | false => rfl
    | true =>
      have := jsStartsWith_trans pathname p "/api/" hp h
      rw [hnap] at this
      exact absurd this (by simp)
  have h1 := key "/api/auth" (by decide)
  have h2 := key "/api/health" (by decide)
  have h3 := key "/api/register" (by decide)
  have h4 := key "/api/stripe/webhook" (by decide)
  have h5 := key "/api/monitoring" (by decide)
  have hapi : isApiPublicPath pathname = false := by
    simp [isApiPublicPath, apiPublicPaths, h1, h2, h3, h4, h5]
  refine ⟨hapi, ?_⟩
  intro sess
  simp [loginRedirectDecision, hapi]

/-- C10 (witness): the statement at the concrete page path `/en/dashboard`. -/
theorem c10_api_allowlist_vacuous_witness :
    isApiPublicPath "/en/dashboard" = false ∧
    loginRedirectDecision SessionResult.notFound "/en/dashboard" =
      (!isAuthenticatedOf SessionResult.notFound &&
        !isPublicPath (stripLocale "/en/dashboard")) :=
  ⟨(c10_api_allowlist_vacuous_on_page_branch "/en/dashboard" (by decide)).1,
   (c10_api_allowlist_vacuous_on_page_branch "/en/dashboard" (by decide)).2
     SessionResult.notFound⟩

/-! ## C5: locale resolution -/

/-- A successful `find?` returns the first element satisfying the predicate:
the list splits around the found element, with every earlier element failing
the predicate. -/
theorem find?_eq_some_first {α : Type} (p : α → Bool) :
    ∀ (l : List α) (a : α), l.find? p = some a →
      ∃ pre post, l = pre ++ a :: post ∧ p a = true ∧ ∀ x ∈ pre, p x = false := by
  intro l
  induction l with
  | nil => intro a h; simp [List.find?] at h
  | cons b bs ih =>
    intro a h
    cases hb : p b with
    | false =>
      rw [List.find?_cons_of_neg _ (by simp [hb])] at h
      obtain ⟨pre, post, heq, hpa, hpre⟩ := ih a h
      refine ⟨b :: pre, post, by rw [heq]; rfl, hpa, ?_⟩
      intro x hx
      rcases List.mem_cons.mp hx with rfl | hx
      · exact hb
      · exact hpre x hx
    | true =>
      rw [List.find?_cons_of_pos _ hb] at h
      cases h
      exact ⟨[], bs, rfl, hb, by intro x hx; simp at hx⟩

/-- The spec's characterization of the detected locale: `loc` is a configured
locale whose code occurs in the header, and every locale declared before it
does not occur. -/
def isFirstDetectedLocale (acceptLanguage loc : String) : Prop :=
  ∃ pre post, routing.locales = pre ++ loc :: post ∧
    localeMatches acceptLanguage loc = true ∧
    ∀ l ∈ pre, localeMatches acceptLanguage l = false

/-- C5: for every request whose path does not already start with a configured
locale segment, `handleI18nRouting` redirects to `/${locale}${path}`, where
`locale` is the first configured locale (in declaration order) whose code
occurs in the lowercased Accept-Language header, or the default locale when
no configured locale occurs; locale-prefixed paths pass through unchanged. -/
theorem c5_locale_resolution :
    ∀ req : Request,
      (hasLocalePrefix req.pathname = false →
        ∃ loc, handleI18nRouting req =
            I18nResult.redirect ("/" ++ loc ++ req.pathname) ∧
          (isFirstDetectedLocale (req.acceptLanguage.getD "") loc ∨
            (loc = routing.defaultLocale ∧
              ∀ l ∈ routing.locales,
                localeMatches (req.acceptLanguage.getD "") l = false))) ∧
      (hasLocalePrefix req.pathname = true →
        handleI18nRouting req = I18nResult.next) := by
  intro req
  constructor
  · intro hno
    have hred : handleI18nRouting req =
        I18nResult.redirect
          ("/" ++ detectLocale (req.acceptLanguage.getD "") ++ req.pathname) := by
      simp [handleI18nRouting, hno]
    refine ⟨detectLocale (req.acceptLanguage.getD ""), hred, ?_⟩
    unfold detectLocale
    cases hf : routing.locales.find?
        (fun locale => localeMatches (req.acceptLanguage.getD "") locale) with
    | some l =>
      left
      obtain ⟨pre, post, heq, hpl, hpre⟩ := find?_eq_some_first _ _ _ hf
      exact ⟨pre, post, heq, hpl, hpre⟩
    | none =>
      right
      refine ⟨rfl, ?_⟩
      intro l hl
      exact Bool.eq_false_iff.mpr (List.find?_eq_none.mp hf l hl)
  · intro hyes
    simp [handleI18nRouting, hyes]

/-- C5 (witness): a GET for `/dashboard` with header `fr-FR,en;q=0.9` is
redirected with the first matching configured locale. -/
theorem c5_locale_resolution_witness :
    ∃ loc, handleI18nRouting
        { method := "GET", pathname := "/dashboard",
          acceptLanguage := some "fr-FR,en;q=0.9", origin := none,
          csrfCookie := none, csrfHeader := none } =
        I18nResult.redirect ("/" ++ loc ++ "/dashboard") ∧
      (isFirstDetectedLocale ((some "fr-FR,en;q=0.9").getD "") loc ∨
        (loc = routing.defaultLocale ∧
          ∀ l ∈ routing.locales,
            localeMatches ((some "fr-FR,en;q=0.9").getD "") l = false)) :=
  (c5_locale_resolution
    { method := "GET", pathname := "/dashboard",
      acceptLanguage := some "fr-FR,en;q=0.9", origin := none,
      csrfCookie := none, csrfHeader := none }).1 (by decide)

/-! ## C6: the first `maxRequests` calls are allowed, the next is rejected -/

/-- One in-window step from a stored record with count below the limit. -/
theorem checkRateLimitStep_stored_allowed (config : RateLimitConfig) (t1 t c : Nat)
    (h1 : 0 < t1) (hw : t - t1 ≤ config.windowSeconds * 1000)
    (hc : c < config.maxRequests) :
    checkRateLimitStep config t (CacheCell.stored ⟨c, t1⟩) =
      { result := expectedWindowResult config t1 c,
        cell := CacheCell.stored ⟨c + 1, t1⟩,
        write := some (⟨c + 1, t1⟩, config.windowSeconds) } := by
  have h0 : (t1 == 0) = false := by rw [beq_eq_false_iff_ne]; omega
  have hexp : (decide (t - t1 > config.windowSeconds * 1000)) = false := by
    rw [decide_eq_false_iff_not]; omega
  have hall : (decide (c < config.maxRequests)) = true := by
    rw [decide_eq_true_eq]; exact hc
  simp [checkRateLimitStep, h0, hexp, hall, expectedWindowResult, hc]

/-- One in-window step from a stored record at the limit: rejected, nothing
changes. -/
theorem checkRateLimitStep_stored_rejected (config : RateLimitConfig) (t1 t : Nat)
    (h1 : 0 < t1) (hw : t - t1 ≤ config.windowSeconds * 1000) :
    checkRateLimitStep config t (CacheCell.stored ⟨config.maxRequests, t1⟩) =
      { result := expectedWindowResult config t1 config.maxRequests,
        cell := CacheCell.stored ⟨config.maxRequests, t1⟩,
        write := none } := by
  have h0 : (t1 == 0) = false := by rw [beq_eq_false_iff_ne]; omega
  have hexp : (decide (t - t1 > config.windowSeconds * 1000)) = false := by
    rw [decide_eq_false_iff_not]; omega
  have hall : (decide (config.maxRequests < config.maxRequests)) = false := by
    rw [decide_eq_false_iff_not]; omega
  simp [checkRateLimitStep, h0, hexp, hall, expectedWindowResult]

/-- Running a sequence of in-window calls from a stored record with count `c`
produces exactly the expected results for positions `c, c+1, …`. -/
theorem runCalls_stored (config : RateLimitConfig) (t1 : Nat) (h1 : 0 < t1) :
    ∀ (ts : List Nat) (c : Nat), c ≤ config.maxRequests →
      (∀ t ∈ ts, t - t1 ≤ config.windowSeconds * 1000) →
      runCalls config (CacheCell.stored ⟨c, t1⟩) ts =
        (List.range ts.length).map
          (fun j => expectedWindowResult config t1 (c + j)) := by
  intro ts
  induction ts with
  | nil => intro c _ _; rfl
  | cons t ts ih =>
    intro c hc hwin
    have hw : t - t1 ≤ config.windowSeconds * 1000 := hwin t (List.mem_cons_self t ts)
    have hwin' : ∀ u ∈ ts, u - t1 ≤ config.windowSeconds * 1000 := by
      intro u hu; exact hwin u (List.mem_cons.mpr (Or.inr hu))
    by_cases hcm : c < config.maxRequests
    · rw [show runCalls config (CacheCell.stored ⟨c, t1⟩) (t :: ts) =
          (checkRateLimitStep config t (CacheCell.stored ⟨c, t1⟩)).result ::
            runCalls config (checkRateLimitStep config t (CacheCell.stored ⟨c, t1⟩)).cell ts
        from rfl]
      rw [checkRateLimitStep_stored_allowed config t1 t c h1 hw hcm]
      rw [ih (c + 1) (by omega) hwin']
      rw [List.length_cons, List.range_succ_eq_map, List.map_cons, List.map_map]
      have hfun : (fun j => expectedWindowResult config t1 (c + 1 + j)) =
          ((fun j => expectedWindowResult config t1 (c + j)) ∘ Nat.succ) :=
        funext fun j => congrArg (expectedWindowResult config t1) (by omega)
      rw [hfun]
      exact congrArg₂ _ (congrArg (expectedWindowResult config t1) (by omega)) rfl
    · have hceq : c = config.maxRequests := by omega
      subst hceq
      rw [show runCalls config (CacheCell.stored ⟨config.maxRequests, t1⟩) (t :: ts) =
          (checkRateLimitStep config t (CacheCell.stored ⟨config.maxRequests, t1⟩)).result ::
            runCalls config
              (checkRateLimitStep config t (CacheCell.stored ⟨config.maxRequests, t1⟩)).cell ts
        from rfl]
      rw [checkRateLimitStep_stored_rejected config t1 t h1 hw]
      rw [ih config.maxRequests (by omega) hwin']
      rw [List.length_cons, List.range_succ_eq_map, List.map_cons, List.map_map]
      refine congrArg₂ _ (congrArg (expectedWindowResult config t1) (by omega)) ?_
      refine List.map_congr_left fun j _ => ?_
      show expectedWindowResult config t1 (config.maxRequests + j) =
        expectedWindowResult config t1 (config.maxRequests + Nat.succ j)
      unfold expectedWindowResult
      rw [if_neg (by omega), if_neg (by omega)]

/-- The full run from an empty store equals the expected results list. -/
theorem runCalls_empty_window (config : RateLimitConfig) (t1 : Nat) (rest : List Nat)
    (hmax : 1 ≤ config.maxRequests) (h1 : 0 < t1)
    (hwin : ∀ t ∈ rest, t - t1 ≤ config.windowSeconds * 1000) :
    runCalls config CacheCell.empty (t1 :: rest) =
      (List.range (rest.length + 1)).map (fun j => expectedWindowResult config t1 j) := by
  have hfirst : checkRateLimitStep config t1 CacheCell.empty =
      { result := expectedWindowResult config t1 0,
        cell := CacheCell.stored ⟨1, t1⟩,
        write := some (⟨1, t1⟩, config.windowSeconds) } := by
    have hexp : (decide (t1 - t1 > config.windowSeconds * 1000)) = false := by
      rw [decide_eq_false_iff_not]; omega
    have hall : (decide ((0 : Nat) < config.maxRequests)) = true := by
      rw [decide_eq_true_eq]; omega
    have hpos : 0 < config.maxRequests := by omega
    simp [checkRateLimitStep, hexp, hall, expectedWindowResult, hpos]
  rw [show runCalls config CacheCell.empty (t1 :: rest) =
      (checkRateLimitStep config t1 CacheCell.empty).result ::
        runCalls config (checkRateLimitStep config t1 CacheCell.empty).cell rest
    from rfl]
  rw [hfirst]
  rw [runCalls_stored config t1 h1 rest 1 (by omega) hwin]
  rw [List.range_succ_eq_map, List.map_cons, List.map_map]
  refine congrArg₂ _ rfl ?_
  refine List.map_congr_left fun j _ => ?_
  exact congrArg (expectedWindowResult config t1) (by omega)

/-- C6: from an empty store, with `maxRequests ≥ 1` and `maxRequests` further
calls all within the window of the first call, the first `maxRequests` calls
are allowed with strictly decreasing `remaining`, and the
`(maxRequests+1)`-th call is rejected with `remaining = 0`. -/
theorem c6_window_sequence :
    ∀ (config : RateLimitConfig) (t1 : Nat) (rest : List Nat),
      1 ≤ config.maxRequests →
      0 < t1 →
      rest.length = config.maxRequests →
      (∀ t ∈ rest, t - t1 ≤ config.windowSeconds * 1000) →
      (∀ i, i < config.maxRequests →
        ((runCalls config CacheCell.empty (t1 :: rest)).getD i default).allowed = true) ∧
      (∀ i, i + 1 < config.maxRequests →
        ((runCalls config CacheCell.empty (t1 :: rest)).getD (i + 1) default).remaining <
          ((runCalls config CacheCell.empty (t1 :: rest)).getD i default).remaining) ∧
      ((runCalls config CacheCell.empty (t1 :: rest)).getD
          config.maxRequests default).allowed = false ∧
      ((runCalls config CacheCell.empty (t1 :: rest)).getD
          config.maxRequests default).remaining = 0 := by
  intro config t1 rest hmax h1 hlen hwin
  have hrs := runCalls_empty_window config t1 rest hmax h1 hwin
  rw [hlen] at hrs
  have hget : ∀ i, i < config.maxRequests + 1 →
      (runCalls config CacheCell.empty (t1 :: rest)).getD i default =
        expectedWindowResult config t1 i := by
    intro i hi
    rw [hrs, List.getD_eq_getElem?_getD, List.getElem?_map, List.getElem?_range hi]
    rfl
  refine ⟨?_, ?_, ?_, ?_⟩
  · intro i hi
    rw [hget i (by omega)]
    unfold expectedWindowResult
    rw [if_pos hi]
  · intro i hi
    rw [hget (i + 1) (by omega), hget i (by omega)]
    unfold expectedWindowResult
    rw [if_pos (by omega), if_pos (by omega)]
    show config.maxRequests - (i + 1 + 1) < config.maxRequests - (i + 1)
    omega
  · rw [hget config.maxRequests (by omega)]
    unfold expectedWindowResult
    rw [if_neg (by omega)]
  · rw [hget config.maxRequests (by omega)]
    unfold expectedWindowResult
    rw [if_neg (by omega)]

/-- C6 (witness): the limit-2 sequence `1000, 2000, 3000` — two allowed calls
then a rejection with `remaining = 0`. -/
theorem c6_window_sequence_witness :
    ((runCalls ⟨2, 60, "rate-limit:test"⟩ CacheCell.empty
        [1000, 2000, 3000]).getD 0 default).allowed = true ∧
    ((runCalls ⟨2, 60, "rate-limit:test"⟩ CacheCell.empty
        [1000, 2000, 3000]).getD 1 default).remaining <
      ((runCalls ⟨2, 60, "rate-limit:test"⟩ CacheCell.empty
        [1000, 2000, 3000]).getD 0 default).remaining ∧
    ((runCalls ⟨2, 60, "rate-limit:test"⟩ CacheCell.empty
        [1000, 2000, 3000]).getD 2 default).allowed = false ∧
    ((runCalls ⟨2, 60, "rate-limit:test"⟩ CacheCell.empty
        [1000, 2000, 3000]).getD 2 default).remaining = 0 :=
  ⟨(c6_window_sequence ⟨2, 60, "rate-limit:test"⟩ 1000 [2000, 3000]
      (by decide) (by decide) (by decide) (by decide)).1 0 (by decide),
   (c6_window_sequence ⟨2, 60, "rate-limit:test"⟩ 1000 [2000, 3000]
      (by decide) (by decide) (by decide) (by decide)).2.1 0 (by decide),
   (c6_window_sequence ⟨2, 60, "rate-limit:test"⟩ 1000 [2000, 3000]
      (by decide) (by decide) (by decide) (by decide)).2.2.1,
   (c6_window_sequence ⟨2, 60, "rate-limit:test"⟩ 1000 [2000, 3000]
      (by decide) (by decide) (by decide) (by decide)).2.2.2⟩

end EdgeNext
